import Mathlib

/-!
Verification development for vs-tool (src/vs-tool.js), an interactive
wizard that assembles a Virtual Server descriptor, prices it against a
cached catalog of billing rates, and submits it.

The embedding below translates the data and functions of vs-tool.js into
Lean.  Rates and quantity values are modelled as rationals; Kubernetes
quantity strings (gated at entry by k8sValidateQuantity) are modelled as
validated value-unit pairs, since a validated quantity string never ends
in the letter b, so that priceVS's parse of the string with a b appended
(xbytes.parseSize with bits disabled) always yields value times the unit
multiplier in bytes.  Fields that may be absent in JavaScript (undefined)
are modelled with Option.
-/

namespace VsTool

/-- Units of the Kubernetes-style quantity grammar accepted by
k8sValidateQuantity: binary Ki, Mi, Gi, Ti; decimal k, M, G, T; a bare
number denotes bytes. -/
inductive QUnit
  | bytes | Ki | Mi | Gi | Ti | kB | MB | GB | TB
  deriving DecidableEq

/-- Multiplier taking a quantity's numeric value to bytes, as
xbytes.parseSize produces for the corresponding suffix. -/
def QUnit.mult : QUnit → ℚ
  | .bytes => 1
  | .Ki => 1024
  | .Mi => 1024 ^ 2
  | .Gi => 1024 ^ 3
  | .Ti => 1024 ^ 4
  | .kB => 1000
  | .MB => 1000 ^ 2
  | .GB => 1000 ^ 3
  | .TB => 1000 ^ 4

/-- Parsed form of a validated Kubernetes quantity string. -/
structure Quantity where
  value : ℚ
  unit : QUnit
  deriving DecidableEq

/-- Byte count of a quantity, as xbytes.parseSize returns on the string
with a trailing b appended. -/
def Quantity.toBytes (q : Quantity) : ℚ := q.value * q.unit.mult

/-- Conversion to gigabytes, as xbytes.relative to GB returns in its
parsed value. -/
def Quantity.toGB (q : Quantity) : ℚ := q.toBytes / 1000000000

/-- Integer part of a nonnegative rational; used only under an absolute
value, where it agrees with the floor. -/
def ratIntPart (q : ℚ) : ℕ := q.num.toNat / q.den

/-- Decimal digit list of a natural number, least significant first.  The
fuel argument strictly exceeds the digit count at every call site. -/
def natDigitsRevAux : ℕ → ℕ → List Char
  | 0, _ => []
  | fuel + 1, n =>
    if n < 10 then [Nat.digitChar n]
    else Nat.digitChar (n % 10) :: natDigitsRevAux fuel (n / 10)

/-- Decimal digit list of a natural number, most significant first. -/
def natStr (n : ℕ) : List Char := (natDigitsRevAux (n + 1) n).reverse

/-- Magnitude of a rational, written with a conditional so that it
evaluates by kernel reduction. -/
def ratAbs (q : ℚ) : ℚ := if q < 0 then -q else q

/-- JavaScript Number.prototype.toFixed with two fraction digits: the
magnitude is rounded to the nearest hundredth with ties away from zero,
and a minus sign is prepended for negative inputs. -/
def toFixed2 (q : ℚ) : String :=
  let a : ℕ := ratIntPart (ratAbs q * 100 + 1 / 2)
  String.mk ((if q < 0 then ['-'] else []) ++ natStr (a / 100) ++
    '.' :: [Nat.digitChar (a / 10 % 10), Nat.digitChar (a % 10)])

/-- Memory billing rate record of a catalog entry. -/
structure MemoryRate where
  billingRate : ℚ
  deriving DecidableEq

/-- Per-CPU rates of a catalog entry, with its nested memory rate; priceVS
reads option.cpu.billingRate and option.cpu.memory.billingRate. -/
structure CpuRates where
  billingRate : ℚ
  memory : MemoryRate
  deriving DecidableEq

/-- Per-GPU rates of a catalog entry; priceVS reads
option.gpu.billingRate. -/
structure GpuRates where
  billingRate : ℚ
  deriving DecidableEq

/-- One entry of the cached instance-metadata options, with the fields
priceVS reads. -/
structure CatalogEntry where
  id : String
  gpu : GpuRates
  cpu : CpuRates
  deriving DecidableEq

/-- The cached options object: metadata entries split by type into
gpuOptions and cpuOptions, as init builds it. -/
structure Options where
  gpuOptions : List CatalogEntry
  cpuOptions : List CatalogEntry
  deriving DecidableEq

/-- Resource name and namespace pair (metadata of a manifest; the
namespace field is named ns because namespace is reserved in Lean). -/
structure Metadata where
  name : String
  ns : String
  deriving DecidableEq

/-- GPU block of the built descriptor's resources: both fields are copied
from the resource answers and may be absent. -/
structure GpuResource where
  type : Option String
  count : Option ℕ
  deriving DecidableEq

/-- CPU block of the built descriptor's resources. -/
structure CpuResource where
  count : Option ℕ
  type : Option String
  deriving DecidableEq

/-- Compute resources of the built descriptor. -/
structure Resources where
  definition : String
  gpu : GpuResource
  cpu : CpuResource
  memory : Quantity
  deriving DecidableEq

/-- Source PVC reference of the root filesystem. -/
structure PvcRef where
  ns : String
  name : String
  deriving DecidableEq

/-- Source block of the root storage. -/
structure RootSource where
  pvc : PvcRef
  deriving DecidableEq

/-- Root storage block of the built descriptor. -/
structure RootStorage where
  size : Quantity
  storageClassName : String
  source : RootSource
  deriving DecidableEq

/-- Storage block of the built descriptor; swap is present only when the
operator added it. -/
structure Storage where
  root : RootStorage
  swap : Option Quantity
  deriving DecidableEq

/-- A user account collected by the user-add sub-loop. -/
structure User where
  username : String
  password : String
  deriving DecidableEq

/-- Projection of a selected floating-IP service to its name. -/
structure FloatingIP where
  serviceName : String
  deriving DecidableEq

/-- Port list of one protocol; absent when the direct-attach branch
skipped the port questions. -/
structure PortList where
  ports : Option (List ℤ)
  deriving DecidableEq

/-- Network block of the built descriptor. -/
structure Network where
  public : Bool
  tcp : PortList
  udp : PortList
  floatingIPs : List FloatingIP
  deriving DecidableEq

/-- Operating system block of the built descriptor. -/
structure OSBlock where
  type : String
  deriving DecidableEq

/-- Spec of the built Virtual Server descriptor.  The field
initRunning models the manifest field initializeRunning. -/
structure VSSpec where
  region : String
  os : OSBlock
  resources : Resources
  storage : Storage
  users : List User
  network : Network
  initRunning : Bool
  deriving DecidableEq

/-- A built Virtual Server manifest: metadata (from
newVirtualServerManifest, which stamps the given name and namespace) plus
the spec assembled by buildVS. -/
structure VS where
  metadata : Metadata
  spec : VSSpec
  deriving DecidableEq

/-- JavaScript truthiness of an optional string: undefined and the empty
string are falsy. -/
def truthy : Option String → Bool
  | none => false
  | some s => s ≠ ""

/-- Catalog lookup of priceVS: the first gpuOptions entry whose id equals
the descriptor's gpu type when that is truthy, else the first cpuOptions
entry whose id equals the cpu type. -/
def findOption (vs : VS) (options : Options) : Option CatalogEntry :=
  if truthy vs.spec.resources.gpu.type then
    options.gpuOptions.find? (fun o => some o.id == vs.spec.resources.gpu.type)
  else
    options.cpuOptions.find? (fun o => some o.id == vs.spec.resources.cpu.type)

/-- GPU rate term of priceVS: the entry's gpu billing rate times the gpu
count when a gpu type is truthy, else zero.  An undefined count makes the
product NaN in JavaScript, modelled by none. -/
def gpuRate (vs : VS) (option : CatalogEntry) : Option ℚ :=
  if truthy vs.spec.resources.gpu.type then
    vs.spec.resources.gpu.count.map (fun c => option.gpu.billingRate * c)
  else some 0

/-- CPU rate term of priceVS: the entry's cpu billing rate times the cpu
count when a cpu type is truthy, else zero. -/
def cpuRate (vs : VS) (option : CatalogEntry) : Option ℚ :=
  if truthy vs.spec.resources.cpu.type then
    vs.spec.resources.cpu.count.map (fun c => option.cpu.billingRate * c)
  else some 0

/-- Memory rate term of priceVS: the entry's cpu memory billing rate times
the memory size in gigabytes. -/
def memRate (vs : VS) (option : CatalogEntry) : ℚ :=
  option.cpu.memory.billingRate * vs.spec.resources.memory.toGB

/-- Storage rate term of priceVS: 0.000097 per gigabyte of root size, plus
the same rate on the swap size when swap is present. -/
def storeRate (vs : VS) : ℚ :=
  97 / 1000000 * vs.spec.storage.root.size.toGB +
  (match vs.spec.storage.swap with
   | some sw => 97 / 1000000 * sw.toGB
   | none => 0)

/-- Pricing calculator priceVS.  Returns none when the catalog lookup
fails; otherwise the sum of the four rate terms rendered by toFixed with
two fraction digits.  A NaN rate term (undefined count) propagates to the
string NaN exactly as Number.prototype.toFixed renders it. -/
def priceVS (vs : VS) (options : Options) : Option String :=
  match findOption vs options with
  | none => none
  | some option =>
    match gpuRate vs option, cpuRate vs option with
    | some g, some c => some (toFixed2 (g + c + memRate vs option + storeRate vs))
    | _, _ => some "NaN"

/-- Predicate stating, in the contract's own terms, that the descriptor's
compute selection (its GPU type if set, otherwise its CPU type) matches
no catalog entry. -/
def NoCatalogMatch (vs : VS) (options : Options) : Prop :=
  if truthy vs.spec.resources.gpu.type then
    ∀ e ∈ options.gpuOptions, some e.id ≠ vs.spec.resources.gpu.type
  else
    ∀ e ∈ options.cpuOptions, some e.id ≠ vs.spec.resources.cpu.type

/-- Shape of a signed decimal string with exactly two digits after the
point. -/
def TwoDecimalString (s : String) : Prop :=
  ∃ (sign intPart : List Char) (d1 d2 : Char),
    (sign = [] ∨ sign = ['-']) ∧ intPart ≠ [] ∧
    (∀ c ∈ intPart, c.isDigit = true) ∧
    d1.isDigit = true ∧ d2.isDigit = true ∧
    s.data = sign ++ intPart ++ '.' :: [d1, d2]

/-- Request block of an image spec. -/
structure ImageRequests where
  storage : Quantity
  deriving DecidableEq

/-- Resource block of an image spec. -/
structure ImageResources where
  requests : ImageRequests
  deriving DecidableEq

/-- Spec of a cached image: nested resource request and storage class. -/
structure ImageSpec where
  resources : ImageResources
  storageClassName : String
  deriving DecidableEq

/-- A cached image object, with the metadata and spec fields buildVS
reads. -/
structure Image where
  metadata : Metadata
  spec : ImageSpec
  deriving DecidableEq

/-- Answer set collected by the base prompts.  Exactly one of the two
branches is populated in a completed flow: when the cached image list is
nonempty, image holds the selected image object (the format step keeps the
first list entry with the chosen name); otherwise the four manual fields
hold typed answers and image is absent. -/
structure BaseResponse where
  name : String
  ns : String
  region : String
  image : Option Image
  imageName : Option String
  imageNamespace : Option String
  imageSize : Option Quantity
  imageStorageClassName : Option String
  os : String
  deriving DecidableEq

/-- A definition spec; for a typed definition the format step wraps the
text in a spec whose alias is the text itself. -/
structure DefSpec where
  aliasName : String
  deriving DecidableEq

/-- A definition object as selected or typed in the resource prompts. -/
structure Definition where
  spec : DefSpec
  deriving DecidableEq

/-- Answer set collected by the resource prompts of a completed flow.
The gpu question is asked only when the systemType toggle was affirmed,
gpuCount only when a gpu answer is truthy, and cpu only when the toggle
was declined; skipped questions leave their key absent. -/
structure ResouceResponse where
  definition : Definition
  systemType : Bool
  gpu : Option String
  gpuCount : Option ℕ
  cpu : Option String
  cpuCount : ℕ
  memory : Quantity
  addSwap : Bool
  swap : Option Quantity
  deriving DecidableEq

/-- Raw operator inputs to the resource prompts.  A number input of none
means the operator submitted the prompt unchanged, in which case the
prompt resolves to its declared initial value of 1. -/
structure ResourceInputs where
  definition : Definition
  systemType : Bool
  gpuChoice : String
  gpuCountInput : Option ℕ
  cpuChoice : String
  cpuCountInput : Option ℕ
  memory : Quantity
  addSwap : Bool
  swapInput : Quantity
  deriving DecidableEq

/-- Resolution of the resource prompts by the question flow engine: each
question's activity condition is evaluated against the answers collected
so far, skipped questions store nothing, and a number prompt submitted
without input stores its initial value. -/
def resolveResource (i : ResourceInputs) : ResouceResponse :=
  let gpu : Option String := if i.systemType then some i.gpuChoice else none
  { definition := i.definition
    systemType := i.systemType
    gpu := gpu
    gpuCount := if truthy gpu then some (i.gpuCountInput.getD 1) else none
    cpu := if i.systemType then none else some i.cpuChoice
    cpuCount := i.cpuCountInput.getD 1
    memory := i.memory
    addSwap := i.addSwap
    swap := if i.addSwap then some i.swapInput else none }

/-- A network service object, as listed for the floating-IP choices. -/
structure Service where
  metadata : Metadata
  deriving DecidableEq

/-- Answer set collected by the network prompts of a completed flow: the
port lists are absent when direct attach was affirmed, and the public
toggle is absent when its activity condition evaluated false. -/
structure NetworkResponse where
  directAttach : Bool
  tcpPorts : Option (List ℤ)
  udpPorts : Option (List ℤ)
  floatingIPs : List Service
  public : Option Bool
  deriving DecidableEq

/-- Raw operator inputs to the network prompts; the port lists are the
formatted entries (empty items dropped, remaining items parsed), as the
list prompts store them after validation. -/
structure NetworkInputs where
  directAttach : Bool
  tcpPorts : List ℤ
  udpPorts : List ℤ
  floatingIPs : List Service
  publicAnswer : Bool
  deriving DecidableEq

/-- Resolution of the network prompts: the port questions are skipped when
direct attach was affirmed, and the public toggle is asked exactly when
direct attach was affirmed or one of the stored port lists is nonempty. -/
def resolveNetwork (i : NetworkInputs) : NetworkResponse :=
  let tcp : Option (List ℤ) := if i.directAttach then none else some i.tcpPorts
  let udp : Option (List ℤ) := if i.directAttach then none else some i.udpPorts
  { directAttach := i.directAttach
    tcpPorts := tcp
    udpPorts := udp
    floatingIPs := i.floatingIPs
    public :=
      if i.directAttach || (tcp.getD []).length > 0 || (udp.getD []).length > 0
      then some i.publicAnswer else none }

/-- Placeholder quantity standing in for a JavaScript undefined read on a
branch that a completed flow never takes. -/
def undefinedQuantity : Quantity := { value := 0, unit := QUnit.bytes }

/-- Descriptor builder buildVS: assembles the Virtual Server manifest from
the collected answer sets.  Each field is copied exactly as the source
assigns it; the root storage fields take the image branch when an image
object is present and the manual answers otherwise, and network.public is
the stored answer with false substituted when it is absent or false. -/
def buildVS (baseResponse : BaseResponse) (resouceResponse : ResouceResponse)
    (users : List User) (networkResponse : NetworkResponse) : VS :=
  { metadata := { name := baseResponse.name, ns := baseResponse.ns }
    spec :=
      { region := baseResponse.region
        os := { type := baseResponse.os }
        resources :=
          { definition := resouceResponse.definition.spec.aliasName
            gpu := { type := resouceResponse.gpu, count := resouceResponse.gpuCount }
            cpu := { count := some resouceResponse.cpuCount, type := resouceResponse.cpu }
            memory := resouceResponse.memory }
        storage :=
          { root :=
              { size :=
                  match baseResponse.image with
                  | some im => im.spec.resources.requests.storage
                  | none => baseResponse.imageSize.getD undefinedQuantity
                storageClassName :=
                  match baseResponse.image with
                  | some im => im.spec.storageClassName
                  | none => baseResponse.imageStorageClassName.getD ""
                source :=
                  { pvc :=
                      { ns :=
                          match baseResponse.image with
                          | some im => im.metadata.ns
                          | none => baseResponse.imageNamespace.getD ""
                        name :=
                          match baseResponse.image with
                          | some im => im.metadata.name
                          | none => baseResponse.imageName.getD "" } } }
            swap := resouceResponse.swap }
        users := users
        network :=
          { public := networkResponse.public.getD false
            tcp := { ports := networkResponse.tcpPorts }
            udp := { ports := networkResponse.udpPorts }
            floatingIPs := networkResponse.floatingIPs.map
              (fun f => { serviceName := f.metadata.name }) }
        initRunning := true } }

/-- One round of the user-add loop in main: the answer to the add-a-user
toggle and, when affirmed, either the collected user or none when the
username or password prompt was cancelled.  Cancellation or a declined
toggle ends the loop, keeping the users already collected. -/
def userLoop : List (Bool × Option User) → List User
  | [] => []
  | (addUser, entry) :: rest =>
    if addUser then
      match entry with
      | none => []
      | some u => u :: userLoop rest
    else []

/-- The wizard main up to the built descriptor.  Cancellation during the
base, resource, or network prompts exits the whole process (modelled as
none); cancellation inside the user-add sub-loop is recorded in the user
script and does not end the wizard. -/
def mainFlow (baseCancelled : Bool) (baseResponse : BaseResponse)
    (resCancelled : Bool) (res : ResourceInputs)
    (userScript : List (Bool × Option User))
    (netCancelled : Bool) (net : NetworkInputs) : Option VS :=
  if baseCancelled || resCancelled || netCancelled then none
  else some (buildVS baseResponse (resolveResource res) (userLoop userScript)
    (resolveNetwork net))

/-- Outcome of one create call of the external client: a status code, or a
thrown error with its message. -/
inductive CreateOutcome
  | status (code : ℕ)
  | thrown (msg : String)
  deriving DecidableEq

/-- Success test of the submission loop: a create call succeeds exactly
when it returns status code 201; a thrown error is a failure. -/
def createSuccess : CreateOutcome → Bool
  | .status code => code == 201
  | .thrown _ => false

/-- Submission loop applyFunc: each list entry is one round, holding the
create call's outcome and the operator's answer to the try-again toggle
(consulted only after a failure).  On success it returns true; on failure
with try-again affirmed it recurses on the remaining rounds; on failure
with try-again declined it falls through to the final return true of the
source.  The result is none only when the round script is exhausted. -/
def applyFunc : List (CreateOutcome × Bool) → Option Bool
  | [] => none
  | (outcome, tryAgain) :: rest =>
    if createSuccess outcome then some true
    else if tryAgain then applyFunc rest
    else some true

/-- Rest destructuring of the template object against a name: all entries
whose key differs from the name, in order. -/
def removeKey (templates : List (String × ℕ)) (templateName : String) :
    List (String × ℕ) :=
  templates.filter (fun p => p.1 ≠ templateName)

/-- Template deletion deleteTemplate, returning the stored template
mapping after the call together with whether the not-found diagnostic was
printed.  When the store is empty it prints the diagnostic and returns
without writing; otherwise it writes the rest-destructured mapping and
prints nothing.  Template values are opaque to the function and modelled
by naturals. -/
def deleteTemplate (templates : List (String × ℕ)) (templateName : String) :
    List (String × ℕ) × Bool :=
  if templates.isEmpty then (templates, true)
  else (removeKey templates templateName, false)

/-- Whitespace characters skipped by JavaScript parseInt, per the
ECMA-262 StringToNumber trimming: WhiteSpace (tab U+0009, vertical tab
U+000B, form feed U+000C, space U+0020, no-break space U+00A0, zero-width
no-break space U+FEFF, and every Space_Separator character: U+1680,
U+2000 through U+200A, U+202F, U+205F, U+3000) together with the line
terminators (line feed U+000A, carriage return U+000D, line separator
U+2028, paragraph separator U+2029). -/
def isWS (c : Char) : Bool :=
  [0x9, 0xA, 0xB, 0xC, 0xD, 0x20, 0xA0, 0x1680, 0x2028, 0x2029, 0x202F,
    0x205F, 0x3000, 0xFEFF].contains c.toNat ||
  (decide (0x2000 ≤ c.toNat) && decide (c.toNat ≤ 0x200A))

/-- Decimal digit value of a character, if any. -/
def digitVal (c : Char) : Option ℕ :=
  if '0' ≤ c ∧ c ≤ '9' then some (c.toNat - '0'.toNat) else none

/-- Hexadecimal digit value of a character, if any. -/
def hexVal (c : Char) : Option ℕ :=
  if '0' ≤ c ∧ c ≤ '9' then some (c.toNat - '0'.toNat)
  else if 'a' ≤ c ∧ c ≤ 'f' then some (c.toNat - 'a'.toNat + 10)
  else if 'A' ≤ c ∧ c ≤ 'F' then some (c.toNat - 'A'.toNat + 10)
  else none

/-- Longest digit prefix in the given base, folded into a value; none when
no digit was seen. -/
def takeDigits (val : Char → Option ℕ) (base : ℕ) :
    List Char → Option ℕ → Option ℕ
  | [], acc => acc
  | c :: cs, acc =>
    match val c with
    | some d => takeDigits val base cs (some ((acc.getD 0) * base + d))
    | none => acc

/-- JavaScript parseInt with no radix argument: leading whitespace (the
full ECMA-262 trimmed set of isWS) and an optional sign are skipped, a 0x
or 0X prefix switches to hexadecimal, the longest digit prefix is parsed
and anything after it is ignored; none models the NaN result when no
digit is found. -/
def parseIntJS (s : String) : Option ℤ :=
  let cs := s.data.dropWhile isWS
  let signAndRest : ℤ × List Char :=
    match cs with
    | '-' :: rest => (-1, rest)
    | '+' :: rest => (1, rest)
    | _ => (1, cs)
  let mag : Option ℕ :=
    match signAndRest.2 with
    | '0' :: 'x' :: rest => takeDigits hexVal 16 rest none
    | '0' :: 'X' :: rest => takeDigits hexVal 16 rest none
    | rest => takeDigits digitVal 10 rest none
  mag.map (fun m => signAndRest.1 * m)

/-- Items of a raw port-list input: the input split on commas with empty
items dropped, as both the validator and the format step compute. -/
def portItems (v : String) : List String :=
  (v.splitOn (",")).filter (fun s => s ≠ "")

/-- Per-item test of the port-list validator: the item's parseInt value
must be strictly above 0 and at most 65536.  The source also compares the
parsed value against NaN with strict inequality, which is always true, so
an unparseable item (NaN) is rejected only by the range test, which NaN
fails. -/
def validPortItem (p : String) : Bool :=
  match parseIntJS p with
  | some n => decide (0 < n) && decide (n ≤ 65536)
  | none => false

/-- Port-list validator of the tcp and udp questions in networkPrompts,
true meaning the input is accepted: more than 10 items is rejected, and
otherwise every item must pass the per-item range test. -/
def validatePorts (v : String) : Bool :=
  if (portItems v).length > 10 then false
  else (portItems v).all validPortItem

/-! Concrete fixtures used to instantiate the theorems below. -/

/-- Base answers of the manual branch (no cached images): typed name,
namespace, root PVC coordinates and size. -/
def bFix : BaseResponse :=
  { name := "vs1", ns := "tenant", region := "ORD1", image := none,
    imageName := some "root-img", imageNamespace := some "tenant",
    imageSize := some { value := 40, unit := QUnit.Gi },
    imageStorageClassName := some "block", os := "linux" }

/-- A concrete cached image. -/
def imgFix : Image :=
  { metadata := { name := "ubuntu-2204", ns := "vd-images" },
    spec := { resources := { requests := { storage := { value := 40, unit := QUnit.Gi } } },
              storageClassName := "block-nvme" } }

/-- Base answers of the image branch: the image object selected from the
cached list. -/
def bImgFix : BaseResponse :=
  { name := "vs1", ns := "tenant", region := "ORD1", image := some imgFix,
    imageName := none, imageNamespace := none, imageSize := none,
    imageStorageClassName := none, os := "linux" }

/-- Resource inputs of the CPU branch: GPU toggle declined, cpu-a chosen
with two cores and two gibibytes of memory, no swap. -/
def iFixCpu : ResourceInputs :=
  { definition := { spec := { aliasName := "a100-lite" } }, systemType := false,
    gpuChoice := "", gpuCountInput := none, cpuChoice := "cpu-a",
    cpuCountInput := some 2, memory := { value := 2, unit := QUnit.Gi },
    addSwap := false, swapInput := { value := 1, unit := QUnit.Gi } }

/-- Resource inputs of the GPU branch with the count prompt submitted
unchanged. -/
def iFixGpu : ResourceInputs :=
  { definition := { spec := { aliasName := "a100-lite" } }, systemType := true,
    gpuChoice := "gpu-a", gpuCountInput := none, cpuChoice := "",
    cpuCountInput := some 2, memory := { value := 2, unit := QUnit.Gi },
    addSwap := false, swapInput := { value := 1, unit := QUnit.Gi } }

/-- Network inputs with direct attach declined and both port lists left
empty. -/
def netFix : NetworkInputs :=
  { directAttach := false, tcpPorts := [], udpPorts := [],
    floatingIPs := [], publicAnswer := false }

/-- The catalog of the pricing scenario: one cpu entry cpu-a with billing
rate 0.01 and memory billing rate 0.005. -/
def catalogC1 : Options :=
  { gpuOptions := []
    cpuOptions := [{ id := "cpu-a", gpu := { billingRate := 0 },
                     cpu := { billingRate := 1 / 100,
                              memory := { billingRate := 5 / 1000 } } }] }

/-- The descriptor built from the scenario answer set: region ORD1, os
linux, cpu-a with two cores, two gibibytes of memory, forty gibibytes of
root storage, no GPU and no swap. -/
def vsC1 : VS :=
  buildVS bFix (resolveResource iFixCpu) [] (resolveNetwork netFix)

/-! Helper lemmas about digit strings and toFixed2. -/

theorem digitChar_isDigit {m : ℕ} (h : m < 10) : (Nat.digitChar m).isDigit = true := by
  interval_cases m <;> decide

theorem natDigitsRevAux_digits :
    ∀ (fuel n : ℕ), ∀ c ∈ natDigitsRevAux fuel n, c.isDigit = true := by
  intro fuel
  induction fuel with
  | zero => intro n c hc; simp [natDigitsRevAux] at hc
  | succ f ih =>
    intro n c hc
    unfold natDigitsRevAux at hc
    by_cases h : n < 10
    · simp [h] at hc
      subst hc
      exact digitChar_isDigit h
    · simp [h] at hc
      rcases hc with hc | hc
      · subst hc
        exact digitChar_isDigit (Nat.mod_lt _ (by norm_num))
      · exact ih _ _ hc

theorem natStr_digits (n : ℕ) : ∀ c ∈ natStr n, c.isDigit = true := by
  intro c hc
  rw [natStr, List.mem_reverse] at hc
  exact natDigitsRevAux_digits _ _ _ hc

theorem natStr_ne_nil (n : ℕ) : natStr n ≠ [] := by
  by_cases h : n < 10 <;> simp [natStr, natDigitsRevAux, h]

theorem toFixed2_twoDecimal (q : ℚ) : TwoDecimalString (toFixed2 q) := by
  refine ⟨if q < 0 then ['-'] else [],
    natStr (ratIntPart (ratAbs q * 100 + 1 / 2) / 100),
    Nat.digitChar (ratIntPart (ratAbs q * 100 + 1 / 2) / 10 % 10),
    Nat.digitChar (ratIntPart (ratAbs q * 100 + 1 / 2) % 10),
    ?_, natStr_ne_nil _, natStr_digits _, ?_, ?_, ?_⟩
  · by_cases h : q < 0 <;> simp [h]
  · exact digitChar_isDigit (Nat.mod_lt _ (by norm_num))
  · exact digitChar_isDigit (Nat.mod_lt _ (by norm_num))
  · rfl

theorem ratIntPart_eq_natFloor (r : ℚ) (h0 : 0 ≤ r) : ratIntPart r = ⌊r⌋₊ := by
  have hnum : 0 ≤ r.num := Rat.num_nonneg.mpr h0
  have hr : ((r.num.toNat : ℚ)) / ((r.den : ℚ)) = r := by
    have hc : ((r.num.toNat : ℤ) : ℚ) = (r.num : ℚ) := by
      rw [Int.toNat_of_nonneg hnum]
    push_cast at hc ⊢
    rw [hc, Rat.num_div_den]
  conv_rhs => rw [← hr]
  rw [Nat.floor_div_nat, Nat.floor_natCast]
  rfl

theorem ratIntPart_eq (r : ℚ) (n : ℕ) (h1 : (n : ℚ) ≤ r) (h2 : r < (n : ℚ) + 1) :
    ratIntPart r = n := by
  have h0 : (0 : ℚ) ≤ r := le_trans (by positivity) h1
  rw [ratIntPart_eq_natFloor r h0]
  exact (Nat.floor_eq_iff h0).mpr ⟨h1, h2⟩

/-- Evaluation rule for toFixed2 on a nonnegative rational: when the
scaled and half-shifted value lies in the unit interval at n, the result
is the digits of n split around the decimal point. -/
theorem toFixed2_eq_of_nonneg (q : ℚ) (n : ℕ) (h0 : 0 ≤ q)
    (h1 : (n : ℚ) ≤ q * 100 + 1 / 2) (h2 : q * 100 + 1 / 2 < (n : ℚ) + 1) :
    toFixed2 q = String.mk (natStr (n / 100) ++
      '.' :: [Nat.digitChar (n / 10 % 10), Nat.digitChar (n % 10)]) := by
  have habs : ratAbs q = q := by rw [ratAbs, if_neg (not_lt.mpr h0)]
  have hip : ratIntPart (ratAbs q * 100 + 1 / 2) = n := by
    rw [habs]
    exact ratIntPart_eq _ n h1 h2
  have hneg : ¬ q < 0 := not_lt.mpr h0
  unfold toFixed2
  simp only [hip, if_neg hneg, List.nil_append]

/-- Catalog lookup failure coincides with the contract's no-match
condition. -/
theorem findOption_eq_none_iff (vs : VS) (options : Options) :
    findOption vs options = none ↔ NoCatalogMatch vs options := by
  unfold findOption NoCatalogMatch
  split <;> · rw [List.find?_eq_none]; simp

/-! Claim theorems. -/

/-- C1: for the answer set with region ORD1, os linux, cpu-a with two
cores, two gibibytes of memory and forty gibibytes of root storage (no
GPU, no swap), priced against the catalog whose cpu-a entry bills 0.01
per core and 0.005 per memory gigabyte, the pricing calculator returns
the two-decimal rendering of 0.01 * 2 + 0.005 * 2 + 0.000097 * 40. -/
theorem priceVS_scenario_ord1 :
    priceVS vsC1 catalogC1 =
      some (toFixed2 (1 / 100 * 2 + 5 / 1000 * 2 + 97 / 1000000 * 40)) := by
  have hred : priceVS vsC1 catalogC1 =
      some (toFixed2 (0 + 1 / 100 * (2 : ℕ) +
        5 / 1000 * ({ value := 2, unit := QUnit.Gi : Quantity }).toGB +
        (97 / 1000000 * ({ value := 40, unit := QUnit.Gi : Quantity }).toGB + 0))) := by
    rfl
  rw [hred]
  have lhs3 := toFixed2_eq_of_nonneg (0 + 1 / 100 * (2 : ℕ) +
      5 / 1000 * ({ value := 2, unit := QUnit.Gi : Quantity }).toGB +
      (97 / 1000000 * ({ value := 40, unit := QUnit.Gi : Quantity }).toGB + 0)) 3
    (by norm_num [Quantity.toGB, Quantity.toBytes, QUnit.mult])
    (by norm_num [Quantity.toGB, Quantity.toBytes, QUnit.mult])
    (by norm_num [Quantity.toGB, Quantity.toBytes, QUnit.mult])
  have rhs3 := toFixed2_eq_of_nonneg (1 / 100 * 2 + 5 / 1000 * 2 + 97 / 1000000 * 40) 3
    (by norm_num) (by norm_num) (by norm_num)
  rw [lhs3, rhs3]

/-- C2: the price is absent exactly when the descriptor's compute
selection (GPU type if set, else CPU type) matches no catalog entry; when
a match exists the result is a decimal string with two fraction digits;
and equal descriptor and catalog always give an equal result.  The count
hypotheses state that a compute count is present whenever the
corresponding type is selected, as in every descriptor of the data
model. -/
theorem priceVS_contract (vs : VS) (options : Options)
    (hg : truthy vs.spec.resources.gpu.type = true →
      vs.spec.resources.gpu.count.isSome = true)
    (hc : truthy vs.spec.resources.cpu.type = true →
      vs.spec.resources.cpu.count.isSome = true) :
    (priceVS vs options = none ↔ NoCatalogMatch vs options) ∧
    (∀ s, priceVS vs options = some s → TwoDecimalString s) ∧
    (∀ vs2 options2, vs2 = vs → options2 = options →
      priceVS vs2 options2 = priceVS vs options) := by
  refine ⟨?_, ?_, ?_⟩
  · cases h : findOption vs options with
    | none =>
      have hp : priceVS vs options = none := by simp [priceVS, h]
      rw [hp]
      exact iff_of_true rfl ((findOption_eq_none_iff vs options).mp h)
    | some o =>
      have hne : priceVS vs options ≠ none := by
        cases hgr : gpuRate vs o <;> cases hcr : cpuRate vs o <;>
          simp [priceVS, h, hgr, hcr]
      constructor
      · intro hn
        exact absurd hn hne
      · intro hnm
        exact absurd ((findOption_eq_none_iff vs options).mpr hnm) (by simp [h])
  · intro s hs
    cases h : findOption vs options with
    | none => simp [priceVS, h] at hs
    | some o =>
      have hgr : ∃ g, gpuRate vs o = some g := by
        by_cases t : truthy vs.spec.resources.gpu.type = true
        · obtain ⟨cnt, hcnt⟩ := Option.isSome_iff_exists.mp (hg t)
          exact ⟨o.gpu.billingRate * cnt, by simp [gpuRate, t, hcnt]⟩
        · exact ⟨0, by simp [gpuRate, t]⟩
      have hcr : ∃ c, cpuRate vs o = some c := by
        by_cases t : truthy vs.spec.resources.cpu.type = true
        · obtain ⟨cnt, hcnt⟩ := Option.isSome_iff_exists.mp (hc t)
          exact ⟨o.cpu.billingRate * cnt, by simp [cpuRate, t, hcnt]⟩
        · exact ⟨0, by simp [cpuRate, t]⟩
      obtain ⟨g, hgr⟩ := hgr
      obtain ⟨c, hcr⟩ := hcr
      simp only [priceVS, h, hgr, hcr, Option.some.injEq] at hs
      exact hs ▸ toFixed2_twoDecimal _
  · intro vs2 options2 h1 h2
    rw [h1, h2]

/-- Witness for C2 at the scenario descriptor and catalog. -/
theorem priceVS_contract_witness :
    (priceVS vsC1 catalogC1 = none ↔ NoCatalogMatch vsC1 catalogC1) ∧
    (∀ s, priceVS vsC1 catalogC1 = some s → TwoDecimalString s) ∧
    (∀ vs2 options2, vs2 = vsC1 → options2 = catalogC1 →
      priceVS vs2 options2 = priceVS vsC1 catalogC1) :=
  priceVS_contract vsC1 catalogC1 (by decide) (by decide)

/-- C3: when the GPU system type was chosen (GPU toggle affirmed and a
GPU selected) and the operator left the count prompt unanswered, the
count question resolves to its initial value 1 and the built descriptor
carries gpu count 1. -/
theorem buildVS_gpuCount_default (b : BaseResponse) (i : ResourceInputs)
    (us : List User) (n : NetworkResponse)
    (h1 : i.systemType = true) (h2 : i.gpuChoice ≠ "")
    (h3 : i.gpuCountInput = none) :
    (buildVS b (resolveResource i) us n).spec.resources.gpu.count = some 1 := by
  simp [buildVS, resolveResource, truthy, h1, h2, h3]

/-- Witness for C3 at the GPU-branch fixture. -/
theorem buildVS_gpuCount_default_witness :
    (buildVS bFix (resolveResource iFixGpu) [] (resolveNetwork netFix)
      ).spec.resources.gpu.count = some 1 :=
  buildVS_gpuCount_default bFix iFixGpu [] (resolveNetwork netFix)
    (by decide) (by decide) (by decide)

/-- C4: behavior of the submission loop when the create call fails with
status 500 and the operator declines the try-again prompt: the loop stops
(no further round is consumed) but returns true, the same success result
as a created server, instead of reporting final failure. -/
theorem applyFunc_failure_declined_returns_true :
    applyFunc [(CreateOutcome.status 500, false)] = some true := by
  decide

/-- C5: the port-list validator rejects an input exactly when its
comma-separated items (empty items ignored) number more than ten or
contain one whose parsed value is not strictly between 0 (exclusive) and
65536 (inclusive), an unparseable item counting as out of range. -/
theorem validatePorts_reject_iff (s : String) :
    validatePorts s = false ↔
      10 < (portItems s).length ∨
      ∃ p ∈ portItems s, ¬ ∃ n : ℤ, parseIntJS p = some n ∧ 0 < n ∧ n ≤ 65536 := by
  have hitem : ∀ p, validPortItem p = false ↔
      ¬ ∃ n : ℤ, parseIntJS p = some n ∧ 0 < n ∧ n ≤ 65536 := by
    intro p
    cases h : parseIntJS p with
    | none => simp [validPortItem, h]
    | some n =>
      by_cases h1 : (0 : ℤ) < n <;> by_cases h2 : n ≤ 65536 <;>
        simp [validPortItem, h, h1, h2]
  by_cases h : 10 < (portItems s).length
  · have hv : validatePorts s = false := by simp [validatePorts, h]
    rw [hv]
    exact iff_of_true rfl (Or.inl h)
  · have hv : validatePorts s = (portItems s).all validPortItem := by
      simp [validatePorts, h]
    rw [hv]
    constructor
    · intro hall
      rw [List.all_eq_false] at hall
      obtain ⟨p, hp, hnp⟩ := hall
      exact Or.inr ⟨p, hp, (hitem p).mp (Bool.not_eq_true _ ▸ hnp)⟩
    · intro hor
      rcases hor with hlen | ⟨p, hp, hnp⟩
      · exact absurd hlen h
      · rw [List.all_eq_false]
        exact ⟨p, hp, by rw [Bool.not_eq_true]; exact (hitem p).mpr hnp⟩

/-- Witness for C5: the iff instantiated at a rejected concrete input. -/
theorem validatePorts_reject_iff_witness :
    validatePorts ("0") = false ↔
      10 < (portItems ("0")).length ∨
      ∃ p ∈ portItems ("0"),
        ¬ ∃ n : ℤ, parseIntJS p = some n ∧ 0 < n ∧ n ≤ 65536 :=
  validatePorts_reject_iff ("0")

/-- C6: when an existing image was selected, the built descriptor's root
storage takes the image's own coordinates and spec fields: the source PVC
is the image's namespace and name, the size its requested storage, and
the storage class its own storage class. -/
theorem buildVS_image_branch (b : BaseResponse) (img : Image)
    (r : ResouceResponse) (us : List User) (n : NetworkResponse)
    (h : b.image = some img) :
    (buildVS b r us n).spec.storage.root =
      { size := img.spec.resources.requests.storage,
        storageClassName := img.spec.storageClassName,
        source := { pvc := { ns := img.metadata.ns,
                             name := img.metadata.name } } } := by
  simp [buildVS, h]

/-- Witness for C6 at the image-branch fixture. -/
theorem buildVS_image_branch_witness :
    (buildVS bImgFix (resolveResource iFixCpu) [] (resolveNetwork netFix)
      ).spec.storage.root =
      { size := imgFix.spec.resources.requests.storage,
        storageClassName := imgFix.spec.storageClassName,
        source := { pvc := { ns := imgFix.metadata.ns,
                             name := imgFix.metadata.name } } } :=
  buildVS_image_branch bImgFix imgFix (resolveResource iFixCpu) []
    (resolveNetwork netFix) (by decide)

/-- C7: a descriptor built from a completed flow has the GPU type set and
the CPU type absent exactly when the GPU toggle was affirmed, and the CPU
type set with the GPU type absent when it was declined, so exactly one of
the two is ever set; a cpu count is present in both cases. -/
theorem buildVS_systemType_exclusive (b : BaseResponse) (i : ResourceInputs)
    (us : List User) (n : NetworkResponse) :
    ((buildVS b (resolveResource i) us n).spec.resources.gpu.type =
      (if i.systemType then some i.gpuChoice else none)) ∧
    ((buildVS b (resolveResource i) us n).spec.resources.cpu.type =
      (if i.systemType then none else some i.cpuChoice)) ∧
    (((buildVS b (resolveResource i) us n).spec.resources.gpu.type).isSome =
      !((buildVS b (resolveResource i) us n).spec.resources.cpu.type).isSome) ∧
    ((buildVS b (resolveResource i) us n).spec.resources.cpu.count).isSome = true := by
  cases hs : i.systemType <;> simp [buildVS, resolveResource, hs]

/-- C8 counterexample: deleting the absent name b from the one-entry
store a leaves the stored mapping identical but prints no not-found
diagnostic, refuting the claim that a diagnostic is reported for every
store state. -/
theorem deleteTemplate_missing_silent :
    ("b" ∉ (List.map Prod.fst [(("a" : String), (1 : ℕ))])) ∧
    deleteTemplate [(("a" : String), (1 : ℕ))] ("b") = ([("a", 1)], false) := by
  decide

/-- C8 amended: deleting a name absent from the store leaves the stored
template mapping identical to what it was before, and the not-found
diagnostic is reported exactly when the store is empty. -/
theorem deleteTemplate_missing_noop (templates : List (String × ℕ))
    (templateName : String)
    (h : templateName ∉ templates.map Prod.fst) :
    (deleteTemplate templates templateName).1 = templates ∧
    ((deleteTemplate templates templateName).2 = true ↔ templates = []) := by
  by_cases he : templates.isEmpty
  · have : templates = [] := List.isEmpty_iff.mp he
    subst this
    simp [deleteTemplate]
  · have hne : templates ≠ [] := fun hnil => he (by simp [hnil])
    have hfil : templates.filter (fun p => p.1 ≠ templateName) = templates := by
      rw [List.filter_eq_self]
      intro a ha
      simp only [ne_eq, decide_eq_true_eq]
      intro heq
      exact h (heq ▸ List.mem_map_of_mem Prod.fst ha)
    unfold deleteTemplate removeKey
    rw [if_neg he]
    exact ⟨hfil, by simp [hne]⟩

/-- Witness for the amended C8 at a one-entry store and an absent name. -/
theorem deleteTemplate_missing_noop_witness :
    (deleteTemplate [(("a" : String), (1 : ℕ))] ("b")).1 = [("a", 1)] ∧
    ((deleteTemplate [(("a" : String), (1 : ℕ))] ("b")).2 = true ↔
      [(("a" : String), (1 : ℕ))] = []) :=
  deleteTemplate_missing_noop [("a", 1)] ("b") (by decide)

/-- C9: cancelling the user-add sub-loop during the username or password
prompts of the second round ends only that loop: the wizard result is
still produced (no process exit), its users are exactly the one user
collected before the cancellation, and the network answers are still
collected and built in. -/
theorem userLoop_cancel_keeps_users (baseResponse : BaseResponse)
    (res : ResourceInputs) (net : NetworkInputs) (u : User)
    (rest : List (Bool × Option User)) :
    mainFlow false baseResponse false res ((true, some u) :: (true, none) :: rest)
        false net =
      some (buildVS baseResponse (resolveResource res) [u] (resolveNetwork net)) ∧
    Option.map (fun vs => vs.spec.users)
        (mainFlow false baseResponse false res
          ((true, some u) :: (true, none) :: rest) false net) = some [u] :=
  ⟨rfl, rfl⟩

/-- C10: when direct attach was declined and both entered port lists are
empty, the public-IP question is skipped and the built descriptor's
network public field is false; the field is a boolean in every built
descriptor by construction. -/
theorem buildVS_public_defaults_false (b : BaseResponse) (r : ResouceResponse)
    (us : List User) (i : NetworkInputs)
    (h1 : i.directAttach = false) (h2 : i.tcpPorts = []) (h3 : i.udpPorts = []) :
    (buildVS b r us (resolveNetwork i)).spec.network.public = false := by
  simp [buildVS, resolveNetwork, h1, h2, h3]

/-- Witness for C10 at the network fixture. -/
theorem buildVS_public_defaults_false_witness :
    (buildVS bFix (resolveResource iFixCpu) [] (resolveNetwork netFix)
      ).spec.network.public = false :=
  buildVS_public_defaults_false bFix (resolveResource iFixCpu) [] netFix
    (by decide) (by decide) (by decide)

end VsTool
